import Mathlib

/-!
Verification development for the coverage-conversion and merge pipeline of
`cypress-code-coverage-v8`.

The embedded source files are
  * `src/lib/common/v8ToIstanbul.js` (conversion pipeline and batch merge),
  * `src/lib/support/support-utils.js` (the coverage filter),
  * `src/support.js` (end-of-run backend coverage collection).

Coverage maps are JSON objects keyed by absolute file path; we embed them as
association lists and compare them extensionally (key order irrelevant, as JS
deep equality does).  External collaborators (istanbul-lib-coverage's `merge`,
minimatch, `getSources` from the absent `sourceMap.js`, the `v8-to-istanbul`
converter) are modelled from the spec or taken as parameters, as noted on each
definition.
-/

set_option maxRecDepth 4000

namespace CypressCoverageV8

/-- Istanbul per-statement data: a source range (modelled as a pair of
offsets) together with a hit count. -/
abbrev StmtData := (Nat × Nat) × Nat

/-- Per-file normalized coverage: association list from statement id to
statement data. -/
abbrev FileCov := List (Nat × StmtData)

/-- A coverage map: association list from absolute file path to per-file
coverage (a JSON object keyed by file path in the source). -/
abbrev CovMap := List (String × FileCov)

/-- The empty coverage map (`libCoverage.createCoverageMap()`). -/
def emptyCoverageMap : CovMap := []

/-- Association-list lookup; the first matching key wins, mirroring JS object
key semantics. -/
def alookup {κ α : Type} [DecidableEq κ] : List (κ × α) → κ → Option α
  | [], _ => none
  | e :: rest, k => if e.1 = k then some e.2 else alookup rest k

theorem alookup_append {κ α : Type} [DecidableEq κ] (l₁ l₂ : List (κ × α)) (k : κ) :
    alookup (l₁ ++ l₂) k =
      match alookup l₁ k with
      | some v => some v
      | none => alookup l₂ k := by
  induction l₁ with
  | nil => simp [alookup]
  | cons e rest ih =>
    by_cases h : e.1 = k
    · simp [alookup, h]
    · simp [alookup, h, ih]

theorem alookup_map {κ α : Type} [DecidableEq κ] (g : κ × α → κ × α)
    (hg : ∀ e, (g e).1 = e.1) (l : List (κ × α)) (k : κ) :
    alookup (l.map g) k = Option.map (fun v => (g (k, v)).2) (alookup l k) := by
  induction l with
  | nil => simp [alookup]
  | cons e rest ih =>
    obtain ⟨a, b⟩ := e
    by_cases h : a = k
    · subst h
      have hk : (g (a, b)).1 = a := hg (a, b)
      simp [alookup, hk]
    · have hk : (g (a, b)).1 = a := hg (a, b)
      simp [alookup, hk, h, ih]

theorem alookup_filter_key {κ α : Type} [DecidableEq κ] (p : κ → Bool)
    (l : List (κ × α)) (k : κ) :
    alookup (l.filter fun e => p e.1) k = if p k then alookup l k else none := by
  induction l with
  | nil => simp [alookup]
  | cons e rest ih =>
    obtain ⟨a, b⟩ := e
    by_cases hk : a = k
    · subst hk
      by_cases hp : p a
      · simp [List.filter_cons, hp, alookup]
      · simp [List.filter_cons, hp, alookup, ih]
    · by_cases hp : p a
      · simp [List.filter_cons, hp, alookup, hk, ih]
      · simp [List.filter_cons, hp, alookup, hk, ih]

theorem alookup_mem {κ α : Type} [DecidableEq κ] {l : List (κ × α)} {k : κ} {v : α}
    (h : alookup l k = some v) : (k, v) ∈ l := by
  induction l with
  | nil => simp [alookup] at h
  | cons e rest ih =>
    obtain ⟨a, b⟩ := e
    by_cases hk : a = k
    · subst hk
      simp [alookup] at h
      subst h
      exact List.mem_cons_self _ _
    · simp [alookup, hk] at h
      exact List.mem_cons_of_mem _ (ih h)

/-! ### The merge (CoverageMerger)

`convertProfileCoverageToIstanbul` merges converted fragments with
istanbul-lib-coverage's `CoverageMap.merge`, which is a dependency, not part
of `src/`.  It is modelled from the spec (section 4.4). -/

/-- Modelled from the spec: the per-id combine of istanbul's file merge.
Counters for an id present on both sides are summed when the structural data
(the range) agrees; an id whose structure disagrees keeps the accumulator's
entry unchanged (the structural-skew "drop mismatched ids" policy). -/
def combStmt (s t : StmtData) : StmtData :=
  if t.1 = s.1 then (s.1, s.2 + t.2) else s

/-- Generic association-list merge: every accumulator entry is combined with
the matching incoming entry when one exists, and incoming entries whose key is
unseen in the accumulator are appended verbatim. -/
def mergeAssoc {κ α : Type} [DecidableEq κ] (comb : α → α → α)
    (acc inc : List (κ × α)) : List (κ × α) :=
  (acc.map fun e =>
    match alookup inc e.1 with
    | some t => (e.1, comb e.2 t)
    | none => e) ++
  inc.filter fun e => (alookup acc e.1).isNone

/-- Modelled from the spec: merging one file's coverage (istanbul-lib-coverage
`FileCoverage.merge`): counters summed per statement id, unseen ids inserted,
structurally mismatched ids dropped in favour of the accumulator. -/
def mergeFile (acc inc : FileCov) : FileCov := mergeAssoc combStmt acc inc

/-- Modelled from the spec: merging a coverage fragment into an accumulated
coverage map (istanbul-lib-coverage `CoverageMap.merge`, the `map.merge` call
of `convertProfileCoverageToIstanbul`): files absent from the accumulator are
inserted verbatim, files present on both sides are merged per statement id. -/
def mergeMap (acc inc : CovMap) : CovMap := mergeAssoc mergeFile acc inc

theorem alookup_mergeAssoc {κ α : Type} [DecidableEq κ] (comb : α → α → α)
    (acc inc : List (κ × α)) (k : κ) :
    alookup (mergeAssoc comb acc inc) k =
      match alookup acc k, alookup inc k with
      | some x, some y => some (comb x y)
      | some x, none => some x
      | none, oy => oy := by
  have hg : ∀ e : κ × α,
      ((fun e : κ × α =>
        match alookup inc e.1 with
        | some t => (e.1, comb e.2 t)
        | none => e) e).1 = e.1 := by
    intro e
    cases h : alookup inc e.1 <;> simp [h]
  unfold mergeAssoc
  rw [alookup_append, alookup_map _ hg, alookup_filter_key (fun k => (alookup acc k).isNone)]
  cases ha : alookup acc k <;> cases hi : alookup inc k <;> simp [ha, hi]

theorem mergeAssoc_empty {κ α : Type} [DecidableEq κ] (comb : α → α → α)
    (inc : List (κ × α)) : mergeAssoc comb [] inc = inc := by
  unfold mergeAssoc
  simp [alookup]

/-! ### Extensional equality of coverage maps

JS deep equality of JSON objects ignores key order; we compare maps pointwise
through lookup, at the file level and at the statement level. -/

/-- Pointwise equality of two files' statement data. -/
def stmtEquiv (a b : FileCov) : Prop := ∀ id, alookup a id = alookup b id

/-- Equality of optional per-file coverage. -/
def optFileEquiv : Option FileCov → Option FileCov → Prop
  | none, none => True
  | some a, some b => stmtEquiv a b
  | _, _ => False

/-- Extensional (deep, key-order-independent) equality of coverage maps. -/
def covEquiv (m₁ m₂ : CovMap) : Prop :=
  ∀ f, optFileEquiv (alookup m₁ f) (alookup m₂ f)

/-- Structural agreement of two fragments: every statement id of a file listed
in `A` that is also present in `B` carries the same range in both.  Converted
fragments of the same file satisfy this because ids derive from a single
structural parse of the source (spec section 3, invariant (b)). -/
def structAgree (A B : CovMap) : Bool :=
  A.all fun fe =>
    fe.2.all fun se =>
      match (alookup B fe.1).bind (fun fb => alookup fb se.1) with
      | some t => decide (se.2.1 = t.1)
      | none => true

theorem mergeFile_comm (fa fb : FileCov)
    (h : ∀ id s t, alookup fa id = some s → alookup fb id = some t → s.1 = t.1) :
    stmtEquiv (mergeFile fa fb) (mergeFile fb fa) := by
  intro id
  unfold mergeFile
  rw [alookup_mergeAssoc, alookup_mergeAssoc]
  cases hsa : alookup fa id with
  | none => cases hsb : alookup fb id <;> simp
  | some s =>
    cases hsb : alookup fb id with
    | none => simp
    | some t =>
      have hr : s.1 = t.1 := h id s t hsa hsb
      simp [combStmt, hr, Nat.add_comm]

/-- C1: merging coverage fragments is order-independent.  For converted
fragments `A` and `B` (whose shared statement ids carry the same range, since
ids derive from a single structural parse of the file),
`merge(merge(empty, A), B)` equals (deep, key-order-independent equality)
`merge(merge(empty, B), A)`: per-id counter summation is commutative. -/
theorem merge_order_independent (A B : CovMap) (h : structAgree A B = true) :
    covEquiv (mergeMap (mergeMap emptyCoverageMap A) B)
             (mergeMap (mergeMap emptyCoverageMap B) A) := by
  have hA : mergeMap emptyCoverageMap A = A := mergeAssoc_empty _ _
  have hB : mergeMap emptyCoverageMap B = B := mergeAssoc_empty _ _
  rw [hA, hB]
  intro f
  unfold mergeMap
  rw [alookup_mergeAssoc, alookup_mergeAssoc]
  cases ha : alookup A f with
  | none =>
    cases hb : alookup B f with
    | none => trivial
    | some fb =>
      show stmtEquiv fb fb
      intro id
      rfl
  | some fa =>
    cases hb : alookup B f with
    | none =>
      show stmtEquiv fa fa
      intro id
      rfl
    | some fb =>
      show stmtEquiv (mergeFile fa fb) (mergeFile fb fa)
      refine mergeFile_comm fa fb ?_
      intro id s t hsa hsb
      have hmemA : (f, fa) ∈ A := alookup_mem ha
      have h1 := (List.all_eq_true.mp h) _ hmemA
      have hmemS : (id, s) ∈ fa := alookup_mem hsa
      have h2 := (List.all_eq_true.mp h1) _ hmemS
      simp only [hb, Option.bind, hsb, decide_eq_true_eq] at h2
      exact h2

/-- Concrete fragments for exercising `merge_order_independent`: they share
the file `/app/a.js` and statement id 0 with agreeing ranges. -/
def mergeWitnessA : CovMap :=
  [("/app/a.js", [(0, ((1, 5), 2))]), ("/app/b.js", [(0, ((0, 9), 1))])]

/-- Second concrete fragment for exercising `merge_order_independent`. -/
def mergeWitnessB : CovMap :=
  [("/app/a.js", [(0, ((1, 5), 3)), (1, ((6, 8), 4))])]

/-- Witness for C1 at concrete fragments. -/
theorem merge_order_independent_check :
    structAgree mergeWitnessA mergeWitnessB = true ∧
    covEquiv (mergeMap (mergeMap emptyCoverageMap mergeWitnessA) mergeWitnessB)
             (mergeMap (mergeMap emptyCoverageMap mergeWitnessB) mergeWitnessA) :=
  ⟨by decide, merge_order_independent mergeWitnessA mergeWitnessB (by decide)⟩

/-! ### String primitives

The filter in `support-utils.js` works on JS strings (prefix tests, substring
search, `String.replace` with a string argument, which replaces only the first
occurrence, `endsWith`, and two regexes).  We embed them on character lists. -/

/-- Prefix test on character lists. -/
def isPrefixL : List Char → List Char → Bool
  | [], _ => true
  | _ :: _, [] => false
  | p :: ps, c :: cs => p = c && isPrefixL ps cs

/-- Substring search (JS `String.prototype.includes`). -/
def containsSubL (needle : List Char) : List Char → Bool
  | [] => isPrefixL needle []
  | c :: rest => isPrefixL needle (c :: rest) || containsSubL needle rest

/-- JS `s.includes(pat)`. -/
def strContains (s pat : String) : Bool := containsSubL pat.data s.data

/-- JS `s.startsWith(pre)` (also the regex test `/^pre/`). -/
def strStartsWith (s pre : String) : Bool := isPrefixL pre.data s.data

/-- JS `s.endsWith(suf)`. -/
def strEndsWith (s suf : String) : Bool := isPrefixL suf.data.reverse s.data.reverse

/-- JS `s.replace(pat, rep)` with a string pattern: only the first occurrence
is replaced; when the pattern does not occur the string is unchanged. -/
def replaceFirstL (pat rep : List Char) : List Char → List Char
  | [] => if isPrefixL pat [] then rep else []
  | c :: rest =>
    if isPrefixL pat (c :: rest) then rep ++ (c :: rest).drop pat.length
    else c :: replaceFirstL pat rep rest

/-- JS `s.replace(pat, rep)` on strings. -/
def replaceFirst (s pat rep : String) : String :=
  String.mk (replaceFirstL pat.data rep.data s.data)

/-- The capture of the regex `([^\/\\]+)$`: the trailing run of characters
that are neither a slash nor a backslash; `none` when that run is empty (the
regex then fails to match, and optional chaining yields a falsy value). -/
def fileNameOf (filePath : String) : Option String :=
  let comp := (filePath.data.reverse.takeWhile fun c => !(c = '/' || c = '\\')).reverse
  if comp.isEmpty then none else some (String.mk comp)

/-- Regex `\w`: ASCII letters, digits and underscore. -/
def isWordChar (c : Char) : Bool :=
  ('a' ≤ c && c ≤ 'z') || ('A' ≤ c && c ≤ 'Z') || ('0' ≤ c && c ≤ '9') || c = '_'

/-- Regex `\s` (the ASCII whitespace characters; the Unicode spaces JS also
accepts do not occur in file paths handled here). -/
def isSpaceChar (c : Char) : Bool :=
  c = ' ' || c = '\t' || c = '\n' || c = '\r' || c = '\x0B' || c = '\x0C'

/-- After the run of `(\w|-)+` characters: keep consuming the run, and at its
first non-run character require `\s` immediately followed by a quote.  Since
`\s`, the quote and the run characters are disjoint, this is exactly what the
backtracking regex accepts. -/
def extRunCont : List Char → Bool
  | [] => false
  | c :: rest =>
    if isWordChar c || c = '-' then extRunCont rest
    else
      isSpaceChar c &&
        match rest with
        | '"' :: _ => true
        | _ => false

/-- Matches `(\w|-)+\s"` at the head of the list. -/
def extTail : List Char → Bool
  | [] => false
  | c :: rest => (isWordChar c || c = '-') && extRunCont rest

/-- Matches `\s(\w|-)+\s"` at the head of the list. -/
def extAfter : List Char → Bool
  | [] => false
  | c :: rest => isSpaceChar c && extTail rest

/-- The regex test `/\/external\s(\w|-)+\s"/` of `filterExternalFromCoverage`:
search every position for the literal `/external` followed by `\s(\w|-)+\s"`. -/
def externalTestL : List Char → Bool
  | [] => false
  | c :: rest =>
    (isPrefixL "/external".data (c :: rest) && extAfter ((c :: rest).drop 9)) ||
      externalTestL rest

/-! ### Glob matching

`Cypress.minimatch` is the external minimatch library; it is modelled for the
glob constructs the plugin's patterns use. -/

/-- Modelled from the spec: glob match of one path segment (no slashes):
`*` matches any run of characters, `?` one character, all else literally.
Fuel-indexed for structural recursion; each step shrinks
`pattern.length + name.length`, so the initial fuel below is sufficient. -/
def segMatchF : Nat → List Char → List Char → Bool
  | 0, _, _ => false
  | _ + 1, [], [] => true
  | _ + 1, [], _ :: _ => false
  | fuel + 1, '*' :: ps, [] => segMatchF fuel ps []
  | fuel + 1, '*' :: ps, c :: ns =>
    segMatchF fuel ps (c :: ns) || segMatchF fuel ('*' :: ps) ns
  | fuel + 1, '?' :: ps, _ :: ns => segMatchF fuel ps ns
  | _ + 1, '?' :: _, [] => false
  | fuel + 1, p :: ps, c :: ns => p = c && segMatchF fuel ps ns
  | _ + 1, _ :: _, [] => false

/-- Glob match of one path segment. -/
def segMatch (p n : List Char) : Bool := segMatchF (p.length + n.length + 1) p n

/-- Modelled from the spec: glob match of a segment list against a path
segment list; a pattern segment that is exactly `**` spans zero or more path
segments. Fuel-indexed as for `segMatchF`. -/
def globSegsF : Nat → List (List Char) → List (List Char) → Bool
  | 0, _, _ => false
  | _ + 1, [], [] => true
  | _ + 1, [], _ :: _ => false
  | fuel + 1, p :: ps, [] => p = ['*', '*'] && globSegsF fuel ps []
  | fuel + 1, p :: ps, n :: ns =>
    if p = ['*', '*'] then globSegsF fuel ps (n :: ns) || globSegsF fuel (p :: ps) ns
    else segMatch p n && globSegsF fuel ps ns

/-- Split a path at `/` separators. -/
def splitOnSlash : List Char → List (List Char)
  | [] => [[]]
  | c :: rest =>
    if c = '/' then [] :: splitOnSlash rest
    else
      match splitOnSlash rest with
      | [] => [[c]]
      | seg :: segs => (c :: seg) :: segs

/-- Modelled from the spec: the external minimatch glob matcher (restricted to
the constructs of the configured test-file patterns: `**`, `*`, `?`,
literals). -/
def minimatchB (filename pattern : String) : Bool :=
  globSegsF (pattern.data.length + filename.data.length + 1)
    (splitOnSlash pattern.data) (splitOnSlash filename.data)

/-! ### The filter configuration (`support-utils.js`)

`getCypressExcludePatterns` reads `config('specPattern') || config('testFiles')`
and `env().codeCoverage && env().codeCoverage.exclude`.  Those dynamic values
are a string, an array of strings, or undefined; `JSVal` embeds exactly these
shapes together with JS truthiness. -/

inductive JSVal where
  | undef : JSVal
  | str : String → JSVal
  | arr : List String → JSVal
deriving DecidableEq

/-- JS truthiness of the embedded values: `undefined` is falsy, a string is
truthy unless empty, an array is always truthy. -/
def jsTruthy : JSVal → Bool
  | .undef => false
  | .str s => !(s = "")
  | .arr _ => true

/-- JS `a || b`. -/
def jsOr (a b : JSVal) : JSVal := if jsTruthy a then a else b

/-- JS string coercion as applied by `filename.endsWith(specPattern)` when the
pattern is not a string: `undefined` coerces to the string "undefined". -/
def jsPatternString : Option String → String
  | some s => s
  | none => "undefined"

/-- The part of the Cypress configuration `getCypressExcludePatterns` reads. -/
structure CypressConfig where
  specPattern : JSVal
  testFiles : JSVal
deriving DecidableEq

/-- The part of the Cypress env `getCypressExcludePatterns` reads:
`env().codeCoverage && env().codeCoverage.exclude`; `undef` covers both a
missing `codeCoverage` object and a missing `exclude` field (the combined
expression is then falsy either way). -/
structure CypressEnv where
  codeCoverageExclude : JSVal
deriving DecidableEq

/-- The part of `Cypress.spec` the filter reads. -/
structure CypressSpec where
  absolute : String
  relative : String
deriving DecidableEq

/-- `getCypressExcludePatterns(config, env, spec)`: the union of the run's
spec pattern(s) (`specPattern`, falling back to `testFiles`) and the explicit
`codeCoverage.exclude` list.  An entry is `none` when the combined
`specPattern || testFiles` value is undefined (the code then builds the
one-element array `[undefined]`). -/
def getCypressExcludePatterns (config : CypressConfig) (env : CypressEnv)
    (_spec : CypressSpec) : List (Option String) :=
  let testFilePattern := jsOr config.specPattern config.testFiles
  let excludePattern := env.codeCoverageExclude
  let testFilePatterns :=
    match testFilePattern with
    | .arr l => l.map some
    | .str s => [some s]
    | .undef => [none]
  match excludePattern with
  | .arr l => testFilePatterns ++ l.map some
  | .str s => if jsTruthy (.str s) then testFilePatterns ++ [some s] else testFilePatterns
  | .undef => testFilePatterns

/-- Modelled from the spec: `Cypress.minimatch(filename, specPattern)`.  The
minimatch library requires the pattern to be a string and throws a TypeError
with the message below when it is called with `undefined`. -/
def minimatchJS (filename : String) (pattern : Option String) : Except String Bool :=
  match pattern with
  | some p => .ok (minimatchB filename p)
  | none => .error "glob pattern string required"

/-- JS `Array.prototype.some` over an effectful predicate: evaluated left to
right, short-circuiting at the first `true`; an exception aborts. -/
def someM {α : Type} (f : α → Except String Bool) : List α → Except String Bool
  | [] => .ok false
  | a :: l =>
    match f a with
    | .error e => .error e
    | .ok true => .ok true
    | .ok false => someM f l

/-- The `isTestFile` predicate of `filterSpecsFromCoverage`: the path is made
relative to the working directory (`spec.absolute.replace(spec.relative, '')`),
then it is a test file when it matches one of the patterns (minimatch) or ends
with one of the patterns verbatim. -/
def isTestFile (testFilePatterns : List (Option String)) (spec : CypressSpec)
    (filePath : String) : Except String Bool :=
  let workingDir := replaceFirst spec.absolute spec.relative ""
  let filename := replaceFirst filePath workingDir ""
  match someM (fun specPattern => minimatchJS filename specPattern) testFilePatterns with
  | .error e => .error e
  | .ok matchedPattern =>
    let matchedEndOfPath :=
      testFilePatterns.any fun specPattern =>
        strEndsWith filename (jsPatternString specPattern)
    .ok (matchedPattern || matchedEndOfPath)

/-- Pure value of `isTestFile` in the normal situation where every pattern is
a string. -/
def isTestFileB (testFilePatterns : List (Option String)) (spec : CypressSpec)
    (filePath : String) : Bool :=
  let workingDir := replaceFirst spec.absolute spec.relative ""
  let filename := replaceFirst filePath workingDir ""
  (testFilePatterns.any fun q =>
    match q with
    | some p => minimatchB filename p
    | none => false) ||
  testFilePatterns.any fun q => strEndsWith filename (jsPatternString q)

/-- Lodash `omitBy(object, predicate)`: keep the entries on which the
predicate (called with value and key) is false; a predicate exception aborts
the traversal. -/
def omitBy (pred : FileCov → String → Except String Bool) : CovMap → Except String CovMap
  | [] => .ok []
  | e :: rest =>
    match pred e.2 e.1 with
    | .error msg => .error msg
    | .ok b =>
      match omitBy pred rest with
      | .error msg => .error msg
      | .ok r => .ok (if b then r else e :: r)

/-- `filterSpecsFromCoverage`: remove the spec files themselves from the
coverage map. -/
def filterSpecsFromCoverage (config : CypressConfig) (env : CypressEnv)
    (spec : CypressSpec) (totalCoverage : CovMap) : Except String CovMap :=
  let testFilePatterns := getCypressExcludePatterns config env spec
  omitBy (fun _ filePath => isTestFile testFilePatterns spec filePath) totalCoverage

/-- The predicate of `filterExternalFromCoverage`: basename starts with
"webpack ", or the path contains "/webpack/", or it matches the synthetic
external-module regex. -/
def isExternalEntry (filePath : String) : Bool :=
  (match fileNameOf filePath with
   | some n => strStartsWith n "webpack "
   | none => false) ||
  strContains filePath "/webpack/" ||
  externalTestL filePath.data

/-- `filterExternalFromCoverage`: remove bundler-synthetic entries (pure:
its predicate cannot throw). -/
def filterExternalFromCoverage (totalCoverage : CovMap) : CovMap :=
  totalCoverage.filter fun e => !isExternalEntry e.1

/-- `filterFilesFromCoverage`: the self-test exclusion pass followed by the
infrastructure exclusion pass. -/
def filterFilesFromCoverage (config : CypressConfig) (env : CypressEnv)
    (spec : CypressSpec) (totalCoverage : CovMap) : Except String CovMap :=
  match filterSpecsFromCoverage config env spec totalCoverage with
  | .error e => .error e
  | .ok m => .ok (filterExternalFromCoverage m)

/-! ### Properties of the filter -/

theorem omitBy_ok_mem {pred : FileCov → String → Except String Bool} {m r : CovMap}
    (h : omitBy pred m = .ok r) : ∀ e ∈ r, e ∈ m ∧ pred e.2 e.1 = .ok false := by
  induction m generalizing r with
  | nil =>
    simp only [omitBy] at h
    cases h
    intro e he
    cases he
  | cons a rest ih =>
    simp only [omitBy] at h
    cases hp : pred a.2 a.1 with
    | error msg => rw [hp] at h; cases h
    | ok b =>
      rw [hp] at h
      cases ho : omitBy pred rest with
      | error msg => rw [ho] at h; cases h
      | ok r' =>
        rw [ho] at h
        cases h
        intro e he
        cases b with
        | true =>
          obtain ⟨hm, hpe⟩ := ih ho e he
          exact ⟨List.mem_cons_of_mem _ hm, hpe⟩
        | false =>
          rcases List.mem_cons.mp he with he | he
          · subst he
            exact ⟨List.mem_cons_self _ _, hp⟩
          · obtain ⟨hm, hpe⟩ := ih ho e he
            exact ⟨List.mem_cons_of_mem _ hm, hpe⟩

theorem omitBy_ok_of_false {pred : FileCov → String → Except String Bool} {m : CovMap}
    (h : ∀ e ∈ m, pred e.2 e.1 = .ok false) : omitBy pred m = .ok m := by
  induction m with
  | nil => rfl
  | cons a rest ih =>
    have ha : pred a.2 a.1 = .ok false := h a (List.mem_cons_self _ _)
    have hr : omitBy pred rest = .ok rest :=
      ih fun e he => h e (List.mem_cons_of_mem _ he)
    simp [omitBy, ha, hr]

theorem omitBy_ok_of_total (pred : FileCov → String → Except String Bool)
    (f : String → Bool) (h : ∀ v k, pred v k = .ok (f k)) (m : CovMap) :
    omitBy pred m = .ok (m.filter fun e => !f e.1) := by
  induction m with
  | nil => rfl
  | cons a rest ih =>
    cases hf : f a.1 with
    | true => simp [omitBy, h a.2 a.1, hf, ih, List.filter_cons]
    | false => simp [omitBy, h a.2 a.1, hf, ih, List.filter_cons]

theorem someM_ok {α : Type} (f : α → Except String Bool) (g : α → Bool)
    (l : List α) (h : ∀ a ∈ l, f a = .ok (g a)) : someM f l = .ok (l.any g) := by
  induction l with
  | nil => rfl
  | cons a rest ih =>
    have ha : f a = .ok (g a) := h a (List.mem_cons_self _ _)
    have hr := ih fun x hx => h x (List.mem_cons_of_mem _ hx)
    cases hg : g a with
    | true => simp [someM, ha, hg]
    | false => simp [someM, ha, hg, hr]

theorem isTestFile_ok (pats : List (Option String)) (sp : CypressSpec) (fp : String)
    (h : ∀ q ∈ pats, q ≠ none) :
    isTestFile pats sp fp = .ok (isTestFileB pats sp fp) := by
  have hf : ∀ q ∈ pats,
      minimatchJS (replaceFirst fp (replaceFirst sp.absolute sp.relative "") "") q
        = .ok (match q with
               | some p => minimatchB (replaceFirst fp (replaceFirst sp.absolute sp.relative "") "") p
               | none => false) := by
    intro q hq
    cases q with
    | none => exact absurd rfl (h none hq)
    | some p => rfl
  simp only [isTestFile, isTestFileB]
  rw [someM_ok _ _ _ hf]

theorem patterns_all_strings (config : CypressConfig) (env : CypressEnv)
    (sp : CypressSpec) (h : jsOr config.specPattern config.testFiles ≠ JSVal.undef) :
    ∀ q ∈ getCypressExcludePatterns config env sp, q ≠ none := by
  intro q hq hnone
  subst hnone
  simp only [getCypressExcludePatterns] at hq
  cases hj : jsOr config.specPattern config.testFiles with
  | undef => exact h hj
  | str s =>
    rw [hj] at hq
    cases he : env.codeCoverageExclude with
    | undef => rw [he] at hq; simp at hq
    | str t => rw [he] at hq; by_cases ht : jsTruthy (.str t) <;> simp [ht] at hq
    | arr l => rw [he] at hq; simp at hq
  | arr l =>
    rw [hj] at hq
    cases he : env.codeCoverageExclude with
    | undef => rw [he] at hq; simp at hq
    | str t => rw [he] at hq; by_cases ht : jsTruthy (.str t) <;> simp [ht] at hq
    | arr l2 => rw [he] at hq; simp at hq

theorem filterSpecs_of_configured (config : CypressConfig) (env : CypressEnv)
    (spec : CypressSpec) (m : CovMap)
    (h : jsOr config.specPattern config.testFiles ≠ JSVal.undef) :
    filterSpecsFromCoverage config env spec m
      = .ok (m.filter fun e =>
          !isTestFileB (getCypressExcludePatterns config env spec) spec e.1) := by
  have hstr := patterns_all_strings config env spec h
  exact omitBy_ok_of_total _
    (fun k => isTestFileB (getCypressExcludePatterns config env spec) spec k)
    (fun _ k => isTestFile_ok _ spec k hstr) m

/-- Per-file sample coverage used by the concrete filter examples below. -/
def sampleFileCov : FileCov := [(0, ((0, 1), 1))]

/-- C3: the coverage filter is idempotent: for every coverage map and every
configuration, applying `filterFilesFromCoverage` to its own output returns
that output unchanged (composition in the exception monad, since a
configuration with no configured pattern makes the filter throw). -/
theorem filterFiles_idempotent (config : CypressConfig) (env : CypressEnv)
    (spec : CypressSpec) (m : CovMap) :
    (filterFilesFromCoverage config env spec m).bind (filterFilesFromCoverage config env spec)
      = filterFilesFromCoverage config env spec m := by
  cases hs : filterSpecsFromCoverage config env spec m with
  | error e => simp [filterFilesFromCoverage, hs, Except.bind]
  | ok m₂ =>
    have hs' : omitBy (fun _ fp =>
        isTestFile (getCypressExcludePatterns config env spec) spec fp) m = .ok m₂ := hs
    have hall : ∀ e ∈ m₂,
        isTestFile (getCypressExcludePatterns config env spec) spec e.1 = .ok false :=
      fun e he => (omitBy_ok_mem hs' e he).2
    have hall₁ : ∀ e ∈ filterExternalFromCoverage m₂,
        isTestFile (getCypressExcludePatterns config env spec) spec e.1 = .ok false :=
      fun e he => hall e (List.mem_filter.mp he).1
    have hspecs₁ : filterSpecsFromCoverage config env spec (filterExternalFromCoverage m₂)
        = .ok (filterExternalFromCoverage m₂) :=
      omitBy_ok_of_false hall₁
    have hext₁ : filterExternalFromCoverage (filterExternalFromCoverage m₂)
        = filterExternalFromCoverage m₂ :=
      List.filter_eq_self.mpr fun e he => (List.mem_filter.mp he).2
    simp [filterFilesFromCoverage, hs, hspecs₁, hext₁, Except.bind]

/-- Counterexample to C4 as stated: with neither `specPattern` nor `testFiles`
configured and a map holding one bundler-internal entry, running the self-test
pass first throws (minimatch rejects the undefined pattern), while running the
infrastructure pass first removes the entry and then succeeds with the empty
map, so the two orders disagree. -/
theorem filter_passes_commute_counterexample :
    Except.map filterExternalFromCoverage
        (filterSpecsFromCoverage ⟨.undef, .undef⟩ ⟨.undef⟩
          ⟨"/app/cypress/e2e/test.cy.js", "cypress/e2e/test.cy.js"⟩
          [("/app/webpack/x.js", sampleFileCov)])
      ≠ filterSpecsFromCoverage ⟨.undef, .undef⟩ ⟨.undef⟩
          ⟨"/app/cypress/e2e/test.cy.js", "cypress/e2e/test.cy.js"⟩
          (filterExternalFromCoverage [("/app/webpack/x.js", sampleFileCov)]) := by
  intro h
  rw [show filterSpecsFromCoverage ⟨.undef, .undef⟩ ⟨.undef⟩
        ⟨"/app/cypress/e2e/test.cy.js", "cypress/e2e/test.cy.js"⟩
        (filterExternalFromCoverage [("/app/webpack/x.js", sampleFileCov)])
      = .ok [] from rfl] at h
  rw [show Except.map filterExternalFromCoverage
        (filterSpecsFromCoverage ⟨.undef, .undef⟩ ⟨.undef⟩
          ⟨"/app/cypress/e2e/test.cy.js", "cypress/e2e/test.cy.js"⟩
          [("/app/webpack/x.js", sampleFileCov)])
      = .error "glob pattern string required" from rfl] at h
  exact Except.noConfusion h

/-- C4 amended: the self-test pass and the infrastructure pass commute for
every coverage map and every configuration in which the combined
`specPattern || testFiles` value is defined (which Cypress guarantees); with
both unset the self-test pass throws inside minimatch, so the two orders can
disagree on maps holding infrastructure entries. -/
theorem filter_passes_commute (config : CypressConfig) (env : CypressEnv)
    (spec : CypressSpec) (m : CovMap)
    (h : jsOr config.specPattern config.testFiles ≠ JSVal.undef) :
    Except.map filterExternalFromCoverage (filterSpecsFromCoverage config env spec m)
      = filterSpecsFromCoverage config env spec (filterExternalFromCoverage m) := by
  rw [filterSpecs_of_configured config env spec m h,
    filterSpecs_of_configured config env spec (filterExternalFromCoverage m) h]
  show Except.ok (filterExternalFromCoverage _) = _
  unfold filterExternalFromCoverage
  rw [List.filter_comm]

/-- Witness for the amended C4 at a configured spec pattern. -/
theorem filter_passes_commute_check :
    jsOr (CypressConfig.mk (.str "cypress/e2e/**/*.cy.js") .undef).specPattern
        (CypressConfig.mk (.str "cypress/e2e/**/*.cy.js") .undef).testFiles ≠ JSVal.undef ∧
    Except.map filterExternalFromCoverage
        (filterSpecsFromCoverage ⟨.str "cypress/e2e/**/*.cy.js", .undef⟩ ⟨.arr ["**/*.spec.js"]⟩
          ⟨"/app/cypress/e2e/test.cy.js", "cypress/e2e/test.cy.js"⟩
          [("/app/webpack/x.js", sampleFileCov), ("/app/src/foo.js", sampleFileCov)])
      = filterSpecsFromCoverage ⟨.str "cypress/e2e/**/*.cy.js", .undef⟩ ⟨.arr ["**/*.spec.js"]⟩
          ⟨"/app/cypress/e2e/test.cy.js", "cypress/e2e/test.cy.js"⟩
          (filterExternalFromCoverage
            [("/app/webpack/x.js", sampleFileCov), ("/app/src/foo.js", sampleFileCov)]) :=
  ⟨by decide,
   filter_passes_commute ⟨.str "cypress/e2e/**/*.cy.js", .undef⟩ ⟨.arr ["**/*.spec.js"]⟩
     ⟨"/app/cypress/e2e/test.cy.js", "cypress/e2e/test.cy.js"⟩
     [("/app/webpack/x.js", sampleFileCov), ("/app/src/foo.js", sampleFileCov)] (by decide)⟩

/-- C5: self-test exclusion removes exactly the files whose path, made
relative to the working directory, matches one of the configured patterns
(minimatch) or ends with one of them verbatim, the patterns being the union of
the run's spec pattern(s) and the explicit exclude list
(`getCypressExcludePatterns`); stated for configurations with a configured
spec pattern.  In particular, with exclude pattern `**/*.spec.js` the filter
keeps `/app/src/foo.js` and drops `/app/test/foo.spec.js`. -/
theorem self_test_exclusion_correct :
    (∀ (config : CypressConfig) (env : CypressEnv) (spec : CypressSpec) (m : CovMap),
      jsOr config.specPattern config.testFiles ≠ JSVal.undef →
      filterSpecsFromCoverage config env spec m
        = .ok (m.filter fun e =>
            !isTestFileB (getCypressExcludePatterns config env spec) spec e.1)) ∧
    filterFilesFromCoverage ⟨.str "cypress/e2e/**/*.cy.js", .undef⟩ ⟨.arr ["**/*.spec.js"]⟩
        ⟨"/app/cypress/e2e/test.cy.js", "cypress/e2e/test.cy.js"⟩
        [("/app/src/foo.js", sampleFileCov), ("/app/test/foo.spec.js", sampleFileCov)]
      = .ok [("/app/src/foo.js", sampleFileCov)] :=
  ⟨fun config env spec m h => filterSpecs_of_configured config env spec m h, rfl⟩

/-- Witness for C5's quantified part at a concrete configuration and map. -/
theorem self_test_exclusion_check :
    jsOr (JSVal.str "cypress/e2e/**/*.cy.js") JSVal.undef ≠ JSVal.undef ∧
    filterSpecsFromCoverage ⟨.str "cypress/e2e/**/*.cy.js", .undef⟩ ⟨.arr ["**/*.spec.js"]⟩
        ⟨"/app/cypress/e2e/test.cy.js", "cypress/e2e/test.cy.js"⟩
        [("/app/src/foo.js", sampleFileCov), ("/app/test/foo.spec.js", sampleFileCov)]
      = .ok ([("/app/src/foo.js", sampleFileCov), ("/app/test/foo.spec.js", sampleFileCov)].filter
          fun e =>
            !isTestFileB
              (getCypressExcludePatterns ⟨.str "cypress/e2e/**/*.cy.js", .undef⟩
                ⟨.arr ["**/*.spec.js"]⟩
                ⟨"/app/cypress/e2e/test.cy.js", "cypress/e2e/test.cy.js"⟩)
              ⟨"/app/cypress/e2e/test.cy.js", "cypress/e2e/test.cy.js"⟩ e.1) :=
  ⟨by decide,
   self_test_exclusion_correct.1 ⟨.str "cypress/e2e/**/*.cy.js", .undef⟩
     ⟨.arr ["**/*.spec.js"]⟩ ⟨"/app/cypress/e2e/test.cy.js", "cypress/e2e/test.cy.js"⟩
     [("/app/src/foo.js", sampleFileCov), ("/app/test/foo.spec.js", sampleFileCov)]
     (by decide)⟩

/-- Counterexample to C7 as stated: with neither `specPattern` nor `testFiles`
configured (the claim explicitly includes such configurations) and a nonempty
map, the filter throws: minimatch is called with an undefined pattern and
raises "glob pattern string required". -/
theorem filter_total_counterexample :
    filterFilesFromCoverage ⟨.undef, .undef⟩ ⟨.undef⟩
        ⟨"/app/cypress/e2e/test.cy.js", "cypress/e2e/test.cy.js"⟩
        [("/app/src/foo.js", sampleFileCov)]
      = Except.error "glob pattern string required" := rfl

/-- C7 amended: `filterFilesFromCoverage` returns a coverage map and never
throws for every coverage map and every configuration in which
`specPattern || testFiles` is defined (which Cypress guarantees); when both
are unset the filter throws on any nonempty map. -/
theorem filter_total (config : CypressConfig) (env : CypressEnv) (spec : CypressSpec)
    (m : CovMap) (h : jsOr config.specPattern config.testFiles ≠ JSVal.undef) :
    filterFilesFromCoverage config env spec m
      = .ok (filterExternalFromCoverage (m.filter fun e =>
          !isTestFileB (getCypressExcludePatterns config env spec) spec e.1)) := by
  unfold filterFilesFromCoverage
  rw [filterSpecs_of_configured config env spec m h]

/-- Witness for the amended C7 at a concrete configuration and map. -/
theorem filter_total_check :
    jsOr (JSVal.str "cypress/e2e/**/*.cy.js") JSVal.undef ≠ JSVal.undef ∧
    filterFilesFromCoverage ⟨.str "cypress/e2e/**/*.cy.js", .undef⟩ ⟨.undef⟩
        ⟨"/app/cypress/e2e/test.cy.js", "cypress/e2e/test.cy.js"⟩
        [("/app/src/foo.js", sampleFileCov)]
      = .ok (filterExternalFromCoverage
          ([("/app/src/foo.js", sampleFileCov)].filter fun e =>
            !isTestFileB
              (getCypressExcludePatterns ⟨.str "cypress/e2e/**/*.cy.js", .undef⟩ ⟨.undef⟩
                ⟨"/app/cypress/e2e/test.cy.js", "cypress/e2e/test.cy.js"⟩)
              ⟨"/app/cypress/e2e/test.cy.js", "cypress/e2e/test.cy.js"⟩ e.1)) :=
  ⟨by decide,
   filter_total ⟨.str "cypress/e2e/**/*.cy.js", .undef⟩ ⟨.undef⟩
     ⟨"/app/cypress/e2e/test.cy.js", "cypress/e2e/test.cy.js"⟩
     [("/app/src/foo.js", sampleFileCov)] (by decide)⟩

/-- C8: infrastructure exclusion removes exactly the entries whose basename
starts with "webpack ", or whose path contains "/webpack/", or whose path
matches the synthetic external-module regex, and keeps every other entry
unchanged; illustrated on a concrete map exercising each disjunct. -/
theorem infrastructure_exclusion_correct :
    (∀ (m : CovMap) (p : String),
      alookup (filterExternalFromCoverage m) p =
        if (match fileNameOf p with
            | some n => strStartsWith n "webpack "
            | none => false) ||
            strContains p "/webpack/" || externalTestL p.data
        then none
        else alookup m p) ∧
    filterExternalFromCoverage
        [("/app/webpack/a.js", sampleFileCov), ("/app/src/a.js", sampleFileCov),
         ("/app/external commonjs \"react\"", sampleFileCov),
         ("/b/webpack internal.js", sampleFileCov)]
      = [("/app/src/a.js", sampleFileCov)] := by
  constructor
  · intro m p
    show alookup (filterExternalFromCoverage m) p
      = if isExternalEntry p then none else alookup m p
    unfold filterExternalFromCoverage
    rw [alookup_filter_key (fun k => !isExternalEntry k)]
    cases h : isExternalEntry p <;> simp [h]
  · rfl

/-! ### The conversion pipeline (`v8ToIstanbul.js`)

`convertProfileCoverageToIstanbul` filters the raw per-script records by URL,
converts each remaining record with `convertToIstanbul` (a rejection is caught
and mapped to `null`), and merges the non-null fragments into an empty map.
`getSources` lives in `sourceMap.js` (not under `src/`) and the converter is
the external v8-to-istanbul package, so both are parameters here. -/

/-- One byte range of raw V8 function coverage. -/
structure CoverageRange where
  startOffset : Nat
  endOffset : Nat
  count : Nat
deriving DecidableEq

/-- One function's coverage inside a raw per-script record. -/
structure FunctionCoverage where
  functionName : String
  isBlockCoverage : Bool
  ranges : List CoverageRange
deriving DecidableEq

/-- One per-script record of a raw profiler snapshot (`cov.result[i]`). -/
structure ScriptCoverage where
  url : String
  functions : List FunctionCoverage
deriving DecidableEq

/-- The result shape of `getSources` (in `sourceMap.js`, not under `src/`):
the resolved local file path and the source texts the converter needs. -/
structure ResolvedSources where
  filePath : String
  sources : List (String × String)
deriving DecidableEq

/-- The `excludePath` callback handed to the v8-to-istanbul converter
(`convertToIstanbul`, lines 37-46): a resolved path is excluded when it
contains one of the known non-source locations. -/
def conversionPathExcluded (path : String) : Bool :=
  if strContains path "/node_modules/" || strContains path "/__cypress/" ||
      strContains path "/__/assets/" then
    true
  else false

/-- `convertToIstanbul(obj, clientRoots, sourceMapCache)`: resolve the script
through `getSources`; a `null` resolution skips the script.  The external
converter is a parameter returning `none` for a thrown conversion error (the
caller catches a rejection and maps it to `null`); it honours `excludePath`,
embedded as removing excluded paths from the converted fragment. -/
def convertToIstanbul (getSources : String → Option ResolvedSources)
    (v8ToIstanbulConv : ResolvedSources → List FunctionCoverage → Option CovMap)
    (obj : ScriptCoverage) : Option CovMap :=
  match getSources obj.url with
  | none => none
  | some res =>
    (v8ToIstanbulConv res obj.functions).map fun coverage =>
      coverage.filter fun e => !conversionPathExcluded e.1

/-- The predicate of `filteredCoverage.result` (lines 72-86): a record is kept
only when its URL begins with `file:` or matches `^https?:` and it contains
none of the known non-source locations. -/
def resultUrlFilter (url : String) : Bool :=
  if !strStartsWith url "file:" && !(strStartsWith url "http:" || strStartsWith url "https:") then
    false
  else if strContains url "/node_modules/" || strContains url "/__cypress/" ||
      strContains url "/__/assets/" then
    false
  else true

/-- The terminal reduce of `convertProfileCoverageToIstanbul`: merge each
non-null converted fragment, in order, into an initially empty coverage map;
null contributions are skipped. -/
def mergeConverted (coverages : List (Option CovMap)) : CovMap :=
  (coverages.filterMap id).foldl mergeMap emptyCoverageMap

/-- `convertProfileCoverageToIstanbul(cov, {comment, clientRoots})` on the raw
record list `cov.result`. -/
def convertProfileCoverageToIstanbul (getSources : String → Option ResolvedSources)
    (v8ToIstanbulConv : ResolvedSources → List FunctionCoverage → Option CovMap)
    (result : List ScriptCoverage) : CovMap :=
  mergeConverted
    ((result.filter fun obj => resultUrlFilter obj.url).map
      (convertToIstanbul getSources v8ToIstanbulConv))

theorem convertProfile_drop_script (getSources : String → Option ResolvedSources)
    (v8ToIstanbulConv : ResolvedSources → List FunctionCoverage → Option CovMap)
    (l1 l2 : List ScriptCoverage) (s : ScriptCoverage)
    (h : resultUrlFilter s.url = false ∨
      convertToIstanbul getSources v8ToIstanbulConv s = none) :
    convertProfileCoverageToIstanbul getSources v8ToIstanbulConv (l1 ++ s :: l2)
      = convertProfileCoverageToIstanbul getSources v8ToIstanbulConv (l1 ++ l2) := by
  unfold convertProfileCoverageToIstanbul mergeConverted
  rcases h with h | h
  · rw [List.filter_append, List.filter_append, List.filter_cons_of_neg]
    simp [h]
  · by_cases hp : resultUrlFilter s.url
    · rw [List.filter_append, List.filter_append, List.filter_cons_of_pos]
      · simp [List.map_append, List.filterMap_append, h]
      · simp [hp]
    · rw [List.filter_append, List.filter_append, List.filter_cons_of_neg]
      simp [hp]

/-- C6: one script's conversion failure never aborts the batch: a script whose
conversion yields `null` (unresolvable source or a caught converter error)
contributes nothing, and the batch result is exactly the result of the batch
without it — every sibling that converts successfully still contributes. -/
theorem conversion_failure_skips_script (getSources : String → Option ResolvedSources)
    (v8ToIstanbulConv : ResolvedSources → List FunctionCoverage → Option CovMap)
    (l1 l2 : List ScriptCoverage) (s : ScriptCoverage)
    (h : convertToIstanbul getSources v8ToIstanbulConv s = none) :
    convertProfileCoverageToIstanbul getSources v8ToIstanbulConv (l1 ++ s :: l2)
      = convertProfileCoverageToIstanbul getSources v8ToIstanbulConv (l1 ++ l2) :=
  convertProfile_drop_script _ _ _ _ _ (Or.inr h)

/-- Resolver used by the conversion witnesses: script 2 is unresolvable. -/
def witnessResolver (url : String) : Option ResolvedSources :=
  if url = "http://localhost/2.js" then none else some ⟨url, []⟩

/-- Converter used by the conversion witnesses: one covered file per script. -/
def witnessConverter (res : ResolvedSources) (_fns : List FunctionCoverage) :
    Option CovMap :=
  some [(res.filePath, sampleFileCov)]

/-- Witness for C6: in a 3-script batch whose middle script resolves to null,
the result is that of the batch of scripts 1 and 3 alone. -/
theorem conversion_failure_skips_script_check :
    convertToIstanbul witnessResolver witnessConverter ⟨"http://localhost/2.js", []⟩ = none ∧
    convertProfileCoverageToIstanbul witnessResolver witnessConverter
        [⟨"http://localhost/1.js", []⟩, ⟨"http://localhost/2.js", []⟩,
         ⟨"http://localhost/3.js", []⟩]
      = convertProfileCoverageToIstanbul witnessResolver witnessConverter
          [⟨"http://localhost/1.js", []⟩, ⟨"http://localhost/3.js", []⟩] :=
  ⟨rfl,
   conversion_failure_skips_script witnessResolver witnessConverter
     [⟨"http://localhost/1.js", []⟩] [⟨"http://localhost/3.js", []⟩]
     ⟨"http://localhost/2.js", []⟩ rfl⟩

/-- C9: path-based exclusion at the conversion stage: a script whose URL
contains `/node_modules/`, `/__cypress/` or `/__/assets/` is dropped before
conversion and contributes nothing to the batch; and inside one converted
script, every resolved file path matching those locations is absent from the
converted fragment (the `excludePath` callback). -/
theorem conversion_path_exclusion :
    (∀ (getSources : String → Option ResolvedSources)
      (v8ToIstanbulConv : ResolvedSources → List FunctionCoverage → Option CovMap)
      (l1 l2 : List ScriptCoverage) (s : ScriptCoverage),
      (strContains s.url "/node_modules/" || strContains s.url "/__cypress/" ||
        strContains s.url "/__/assets/") = true →
      convertProfileCoverageToIstanbul getSources v8ToIstanbulConv (l1 ++ s :: l2)
        = convertProfileCoverageToIstanbul getSources v8ToIstanbulConv (l1 ++ l2)) ∧
    (∀ (getSources : String → Option ResolvedSources)
      (v8ToIstanbulConv : ResolvedSources → List FunctionCoverage → Option CovMap)
      (obj : ScriptCoverage) (cov : CovMap),
      convertToIstanbul getSources v8ToIstanbulConv obj = some cov →
      ∀ p, conversionPathExcluded p = true → alookup cov p = none) := by
  constructor
  · intro getSources v8ToIstanbulConv l1 l2 s h
    refine convertProfile_drop_script _ _ _ _ _ (Or.inl ?_)
    unfold resultUrlFilter
    split
    · rfl
    · simp [h]
  · intro getSources v8ToIstanbulConv obj cov h p hp
    have hstep : ∃ m0 : CovMap, cov = m0.filter fun e => !conversionPathExcluded e.1 := by
      unfold convertToIstanbul at h
      cases hg : getSources obj.url with
      | none => simp [hg] at h
      | some res =>
        simp only [hg] at h
        rcases Option.map_eq_some'.mp h with ⟨m0, _, hcov⟩
        exact ⟨m0, hcov.symm⟩
    rcases hstep with ⟨m0, rfl⟩
    rw [alookup_filter_key (fun k => !conversionPathExcluded k)]
    simp [hp]

/-- Witness for C9's two parts at concrete inputs. -/
theorem conversion_path_exclusion_check :
    ((strContains "http://localhost/node_modules/lib.js" "/node_modules/" ||
       strContains "http://localhost/node_modules/lib.js" "/__cypress/" ||
       strContains "http://localhost/node_modules/lib.js" "/__/assets/") = true ∧
     convertProfileCoverageToIstanbul witnessResolver witnessConverter
        [⟨"http://localhost/1.js", []⟩, ⟨"http://localhost/node_modules/lib.js", []⟩]
      = convertProfileCoverageToIstanbul witnessResolver witnessConverter
          [⟨"http://localhost/1.js", []⟩]) ∧
    (convertToIstanbul witnessResolver witnessConverter ⟨"http://localhost/1.js", []⟩
        = some [("http://localhost/1.js", sampleFileCov)] ∧
     conversionPathExcluded "/app/node_modules/left-pad/index.js" = true ∧
     alookup [("http://localhost/1.js", sampleFileCov)]
        "/app/node_modules/left-pad/index.js" = none) :=
  ⟨⟨by decide,
    conversion_path_exclusion.1 witnessResolver witnessConverter
      [⟨"http://localhost/1.js", []⟩] [] ⟨"http://localhost/node_modules/lib.js", []⟩
      (by decide)⟩,
   ⟨rfl, by decide,
    conversion_path_exclusion.2 witnessResolver witnessConverter
      ⟨"http://localhost/1.js", []⟩ [("http://localhost/1.js", sampleFileCov)] rfl
      "/app/node_modules/left-pad/index.js" (by decide)⟩⟩

/-- C10: implicit scheme restriction: a script record whose URL begins with
none of `file:`, `http:`, `https:` (so neither `/^file:/` nor `/^https?:/`
matches — e.g. a `webpack://`, `blob:` or `data:` origin) is dropped by the
result filter and contributes nothing to the converted coverage map. -/
theorem conversion_scheme_restriction (getSources : String → Option ResolvedSources)
    (v8ToIstanbulConv : ResolvedSources → List FunctionCoverage → Option CovMap)
    (l1 l2 : List ScriptCoverage) (s : ScriptCoverage)
    (hf : strStartsWith s.url "file:" = false)
    (hh : strStartsWith s.url "http:" = false)
    (hs : strStartsWith s.url "https:" = false) :
    convertProfileCoverageToIstanbul getSources v8ToIstanbulConv (l1 ++ s :: l2)
      = convertProfileCoverageToIstanbul getSources v8ToIstanbulConv (l1 ++ l2) := by
  refine convertProfile_drop_script _ _ _ _ _ (Or.inl ?_)
  unfold resultUrlFilter
  simp [hf, hh, hs]

/-- Witness for C10: a `webpack://` script is dropped from a batch. -/
theorem conversion_scheme_restriction_check :
    strStartsWith "webpack://app/src/x.js" "file:" = false ∧
    strStartsWith "webpack://app/src/x.js" "http:" = false ∧
    strStartsWith "webpack://app/src/x.js" "https:" = false ∧
    convertProfileCoverageToIstanbul witnessResolver witnessConverter
        [⟨"http://localhost/1.js", []⟩, ⟨"webpack://app/src/x.js", []⟩]
      = convertProfileCoverageToIstanbul witnessResolver witnessConverter
          [⟨"http://localhost/1.js", []⟩] :=
  ⟨by decide, by decide, by decide,
   conversion_scheme_restriction witnessResolver witnessConverter
     [⟨"http://localhost/1.js", []⟩] [] ⟨"webpack://app/src/x.js", []⟩
     (by decide) (by decide) (by decide)⟩

/-! ### End-of-run backend coverage collection (`support.js`)

The `collectBackendCoverage` after-hook requests each backend URL, reads
`_.get(r, 'body.coverage', null)`, sends a present fragment on, and otherwise
rejects precisely when `expectBackendCoverageOnly` (read from the
configuration with default `false`) is set.  The per-host promises run through
`Cypress.Promise.mapSeries`, so the first rejection fails the step.  A present
`coverage` payload is a coverage-map object (always truthy in JS), embedded as
`Option CovMap`. -/

/-- The rejection message, naming the backend URL. -/
def backendCoverageError (url : String) : String :=
  "Expected to collect backend code coverage from " ++ url

/-- One host's collection step: resolve when the body carries a coverage
fragment (it is sent on via `sendCoverage`); with no coverage, reject with the
descriptive error when `expectBackendCoverageOnly` is set, resolve
otherwise. -/
def collectOneBackend (expectBackendCoverageOnly : Option Bool) (url : String)
    (bodyCoverage : Option CovMap) : Except String Unit :=
  match bodyCoverage with
  | some _ => .ok ()
  | none =>
    if expectBackendCoverageOnly.getD false then .error (backendCoverageError url)
    else .ok ()

/-- The whole end-of-run step over the final host configurations, in series;
the first rejection aborts it. -/
def collectBackendCoverage (expectBackendCoverageOnly : Option Bool) :
    List (String × Option CovMap) → Except String Unit
  | [] => .ok ()
  | (url, body) :: rest =>
    match collectOneBackend expectBackendCoverageOnly url body with
    | .error e => .error e
    | .ok _ => collectBackendCoverage expectBackendCoverageOnly rest

/-- C2: a host's collection step rejects with the error naming its backend URL
iff the response body lacks a `coverage` field and `expectBackendCoverageOnly`
(defaulted to false) is true; in particular with the flag false or unset a
missing `coverage` field resolves.  Moreover the whole end-of-run step
resolves iff every host's step resolves, so the single rejection above is
exactly what fails it. -/
theorem backend_mandatory_error_iff :
    (∀ (expect : Option Bool) (url : String) (body : Option CovMap),
      collectOneBackend expect url body = .error (backendCoverageError url)
        ↔ body = none ∧ expect.getD false = true) ∧
    (∀ (expect : Option Bool) (hosts : List (String × Option CovMap)),
      collectBackendCoverage expect hosts = .ok ()
        ↔ ∀ h ∈ hosts, collectOneBackend expect h.1 h.2 = .ok ()) := by
  constructor
  · intro expect url body
    cases body with
    | some frag => simp [collectOneBackend]
    | none =>
      cases hd : expect.getD false with
      | true => simp [collectOneBackend, hd]
      | false => simp [collectOneBackend, hd]
  · intro expect hosts
    induction hosts with
    | nil => simp [collectBackendCoverage]
    | cons a rest ih =>
      obtain ⟨url, body⟩ := a
      cases hc : collectOneBackend expect url body with
      | error e => simp [collectBackendCoverage, hc]
      | ok u => simp [collectBackendCoverage, hc, ih]

end CypressCoverageV8
